import Mathlib

/-
Shallow embedding of the EcoBee planetary-boundaries scoring engine.

Sources embedded:
  * src/backend/ecoscore.py   (boundary registry, factor tables, item scoring,
    normalization, contextual modifiers, composite scoring, grading, quiz scoring)
  * src/backend/recommender.py (action catalog, action similarity, action graph)
  * src/backend/product_database.py (leaderboard submission, pseudonym generation)

Modelling conventions:
  * Python floats are modelled as rationals (ℚ); the float literals in the
    source (0.8, 1.2, 0.25, ...) are exact decimal fractions.
  * Python strings are Lean `String`s; `a in b` (substring test) and
    `str.lower()` are defined below on character lists.
  * Python dicts with a fixed key set (the per-boundary score maps) are
    modelled as a structure with one field per planetary boundary; dicts
    with free-form keys (the factor tables) are association lists in the
    source's insertion order, since Python dicts iterate in insertion order.
  * Items arrive after the input-shape validation layer (spec section 7), so
    `type`/`category` are optional strings and `materials` is a string list;
    `dict.get` with a default is modelled with `Option.getD`.
  * The display-formatting `round(x, 1)` applied to returned composite scores
    and improvement deltas is omitted: theorems speak about the computed
    values that feed it.
-/

namespace EcoBee

/-! ## Python string helpers -/

/-- Substring test on character lists: Python's `needle in haystack`. -/
def subOf (needle : List Char) : List Char → Bool
  | [] => needle.isEmpty
  | c :: rest => needle.isPrefixOf (c :: rest) || subOf needle rest

/-- Python's `needle in haystack` for strings. -/
def pyIn (needle haystack : String) : Bool :=
  subOf needle.data haystack.data

/-- Python's `str.lower()`. -/
def pyLower (s : String) : String :=
  ⟨s.data.map Char.toLower⟩

/-! ## Planetary boundary registry (ecoscore.py lines 12-63) -/

/-- The five planetary-boundary keys of `PLANETARY_BOUNDARIES`. -/
inductive Boundary
  | climate
  | biosphere
  | biogeochemical
  | freshwater
  | aerosols
deriving DecidableEq, Fintype, Repr

/-- Configuration record for one planetary boundary (ecoscore.py `BoundaryConfig`). -/
structure BoundaryConfig where
  name : String
  weight : ℚ
  safe_operating_space : ℚ
  current_global_status : ℚ
  units : String
  description : String
deriving DecidableEq

/-- The constant boundary table (ecoscore.py `PLANETARY_BOUNDARIES`). -/
def PLANETARY_BOUNDARIES : Boundary → BoundaryConfig
  | .climate => ⟨"Climate Change", 25/100, 350, 415, "ppm CO2eq",
      "Atmospheric CO2 concentration and radiative forcing"⟩
  | .biosphere => ⟨"Biosphere Integrity", 25/100, 10, 100, "E/MSY",
      "Biodiversity loss and ecosystem function"⟩
  | .biogeochemical => ⟨"Biogeochemical Flows", 20/100, 62, 150, "Tg N/yr",
      "Nitrogen and phosphorus cycles"⟩
  | .freshwater => ⟨"Freshwater Use", 15/100, 4000, 2600, "km3/yr",
      "Global consumptive use of freshwater"⟩
  | .aerosols => ⟨"Atmospheric Aerosol Loading", 15/100, 25, 30, "AOD",
      "Aerosols and novel chemical entities"⟩

/-- The boundary keys in the dict's insertion order (`PLANETARY_BOUNDARIES.keys()`). -/
def allBoundaries : List Boundary :=
  [.climate, .biosphere, .biogeochemical, .freshwater, .aerosols]

/-- A per-boundary score map: a Python dict whose keys are exactly the five
boundary keys. -/
structure Scores where
  climate : ℚ
  biosphere : ℚ
  biogeochemical : ℚ
  freshwater : ℚ
  aerosols : ℚ
deriving DecidableEq, Repr

/-- Dict lookup on a per-boundary score map. -/
def Scores.get (s : Scores) : Boundary → ℚ
  | .climate => s.climate
  | .biosphere => s.biosphere
  | .biogeochemical => s.biogeochemical
  | .freshwater => s.freshwater
  | .aerosols => s.aerosols

/-- Apply a function to every boundary's value (the source's
`for boundary in modified_scores:` update loops). -/
def Scores.map (f : ℚ → ℚ) (s : Scores) : Scores :=
  ⟨f s.climate, f s.biosphere, f s.biogeochemical, f s.freshwater, f s.aerosols⟩

/-- The all-50 neutral score map. -/
def Scores.neutral : Scores := ⟨50, 50, 50, 50, 50⟩

/-! ## Factor tables (ecoscore.py lines 67-283) -/

/-- One factor-table row: a category key, the five raw boundary scores, and
the free-text description carried alongside them in the source dict. -/
structure FactorEntry where
  category : String
  scores : Scores
  description : String
deriving DecidableEq

/-- The five canonical scoring domains (the top-level keys of `FACTOR_TABLES`). -/
inductive Domain
  | food
  | fashion
  | mobility
  | career
  | lifestyle
deriving DecidableEq, Fintype, Repr

/-- The constant factor tables (ecoscore.py `FACTOR_TABLES`), rows in the
source dict's insertion order. Scores are listed in the order
climate, biosphere, biogeochemical, freshwater, aerosols. -/
def FACTOR_TABLES : Domain → List FactorEntry
  | .food =>
    [⟨"plant-based", ⟨12, 18, 20, 25, 15⟩, "Plant-based diet with minimal processing"⟩,
     ⟨"mixed", ⟨48, 42, 45, 52, 38⟩, "Balanced omnivore diet"⟩,
     ⟨"meat-heavy", ⟨82, 78, 72, 68, 58⟩, "High meat consumption diet"⟩,
     ⟨"snack", ⟨35, 32, 40, 38, 45⟩, "Processed snack foods"⟩,
     ⟨"drink", ⟨22, 28, 30, 42, 25⟩, "Beverages including dairy and non-dairy"⟩,
     ⟨"packaged", ⟨58, 52, 62, 48, 68⟩, "Heavily packaged processed foods"⟩,
     ⟨"organic", ⟨18, 12, 15, 22, 12⟩, "Certified organic produce"⟩,
     ⟨"local", ⟨20, 25, 28, 30, 20⟩, "Locally sourced food (less than 50km)"⟩,
     ⟨"seafood", ⟨42, 65, 35, 15, 40⟩, "Fish and seafood products"⟩]
  | .fashion =>
    [⟨"cotton", ⟨42, 38, 52, 68, 32⟩, "Conventional cotton textiles"⟩,
     ⟨"polyester", ⟨72, 58, 38, 28, 78⟩, "Synthetic polyester fabrics"⟩,
     ⟨"wool", ⟨58, 68, 62, 42, 38⟩, "Natural wool textiles"⟩,
     ⟨"linen", ⟨22, 18, 28, 32, 18⟩, "Linen and hemp textiles"⟩,
     ⟨"leather", ⟨78, 82, 68, 58, 48⟩, "Animal leather products"⟩,
     ⟨"recycled", ⟨15, 22, 18, 22, 25⟩, "Recycled textile materials"⟩,
     ⟨"synthetic", ⟨68, 52, 32, 22, 82⟩, "Various synthetic materials"⟩,
     ⟨"organic-cotton", ⟨28, 22, 32, 45, 20⟩, "Organic cotton textiles"⟩,
     ⟨"fast-fashion", ⟨75, 65, 55, 50, 80⟩, "Fast fashion items with short lifecycle"⟩]
  | .mobility =>
    [⟨"walk", ⟨2, 5, 3, 3, 2⟩, "Walking as primary transport"⟩,
     ⟨"bike", ⟨8, 12, 8, 8, 6⟩, "Cycling including bike production"⟩,
     ⟨"bus", ⟨32, 28, 22, 18, 38⟩, "Public bus transport"⟩,
     ⟨"train", ⟨22, 18, 12, 12, 22⟩, "Rail transport including electric"⟩,
     ⟨"car", ⟨72, 58, 48, 38, 78⟩, "Personal gasoline vehicle"⟩,
     ⟨"plane", ⟨92, 68, 38, 28, 82⟩, "Air travel per km"⟩,
     ⟨"electric_car", ⟨32, 38, 28, 22, 35⟩, "Electric vehicle including battery impact"⟩,
     ⟨"carpool", ⟨45, 40, 35, 30, 50⟩, "Shared car transport"⟩,
     ⟨"motorcycle", ⟨55, 45, 40, 35, 65⟩, "Motorcycle transport"⟩]
  | .career =>
    [⟨"renewable-energy", ⟨15, 25, 20, 30, 22⟩, "Renewable energy sector"⟩,
     ⟨"tech", ⟨42, 28, 22, 32, 48⟩, "Technology and software"⟩,
     ⟨"finance", ⟨32, 22, 18, 22, 28⟩, "Financial services"⟩,
     ⟨"healthcare", ⟨38, 32, 42, 38, 52⟩, "Healthcare and medical"⟩,
     ⟨"education", ⟨22, 18, 12, 18, 22⟩, "Education and research"⟩,
     ⟨"manufacturing", ⟨78, 72, 82, 68, 88⟩, "Manufacturing and heavy industry"⟩,
     ⟨"agriculture", ⟨52, 68, 78, 82, 58⟩, "Agriculture and farming"⟩,
     ⟨"fossil-fuel", ⟨88, 65, 58, 45, 82⟩, "Fossil fuel industry"⟩,
     ⟨"construction", ⟨68, 58, 65, 52, 72⟩, "Construction and building"⟩,
     ⟨"consulting", ⟨35, 25, 20, 25, 32⟩, "Business consulting services"⟩]
  | .lifestyle =>
    [⟨"minimal", ⟨15, 20, 18, 22, 18⟩, "Minimalist lifestyle choices"⟩,
     ⟨"average", ⟨50, 45, 48, 52, 50⟩, "Average consumption patterns"⟩,
     ⟨"high-consumption", ⟨78, 72, 68, 75, 80⟩, "High consumption lifestyle"⟩,
     ⟨"sustainable", ⟨25, 22, 28, 30, 25⟩, "Actively sustainable choices"⟩]

/-! ## Items and type mapping (ecoscore.py `score_item`, lines 565-649) -/

/-- An input item after the input-shape validation layer: `type` and
`category` are free-text fields that may be missing, `materials` is a list
of free-text tags (`item.get(..., default)` in the source). -/
structure Item where
  type : Option String
  category : Option String
  materials : List String
deriving DecidableEq

/-- The `type_mapping` dict of `score_item`: free-text type to canonical
domain, defaulting to `lifestyle` (`type_mapping.get(item_type, 'lifestyle')`). -/
def type_mapping (item_type : String) : Domain :=
  match (([("meal", Domain.food), ("food", Domain.food), ("beverage", Domain.food),
      ("drink", Domain.food), ("outfit", Domain.fashion), ("clothing", Domain.fashion),
      ("apparel", Domain.fashion), ("transport", Domain.mobility),
      ("mobility", Domain.mobility), ("travel", Domain.mobility),
      ("job", Domain.career), ("career", Domain.career), ("work", Domain.career),
      ("lifestyle", Domain.lifestyle), ("habit", Domain.lifestyle)] :
      List (String × Domain)).find? (fun p => p.1 = item_type)) with
  | some p => p.2
  | none => .lifestyle

/-- Material-based fallback matching (ecoscore.py lines 607-615): for each
material in order, find the first table row whose key contains the lowered
material or is contained in it. -/
def materialMatch (table : List FactorEntry) : List String → Option Scores
  | [] => none
  | m :: rest =>
    match table.find? (fun e => pyIn (pyLower m) e.category || pyIn e.category (pyLower m)) with
    | some e => some e.scores
    | none => materialMatch table rest

/-- Domain-average fallback (ecoscore.py lines 618-627): per-boundary
arithmetic mean over every row of the selected table, or flat 50 for an
empty table. Every row of every table carries all five boundaries, so the
`if boundary in scores` filter of the source keeps every row. -/
def tableAverage (table : List FactorEntry) : Scores :=
  if table.isEmpty then Scores.neutral
  else
    ⟨(table.map (fun e => e.scores.climate)).sum / table.length,
     (table.map (fun e => e.scores.biosphere)).sum / table.length,
     (table.map (fun e => e.scores.biogeochemical)).sum / table.length,
     (table.map (fun e => e.scores.freshwater)).sum / table.length,
     (table.map (fun e => e.scores.aerosols)).sum / table.length⟩

/-- Base-score selection of `score_item` (ecoscore.py lines 594-627):
exact category match, then substring match in row order, then
material-based match, then the domain-average / flat-50 fallback. -/
def selectBase (table : List FactorEntry) (category : String)
    (materials : List String) : Scores :=
  match table.find? (fun e => e.category = category) with
  | some e => e.scores
  | none =>
    match table.find? (fun e => pyIn category e.category || pyIn e.category category) with
    | some e => e.scores
    | none =>
      match materialMatch table materials with
      | some s => s
      | none => tableAverage table

/-! ## Contextual modifiers (ecoscore.py lines 651-680) -/

/-- Keywords of the positive (impact-reducing) modifier. -/
def positiveKeywords : List String := ["local", "organic", "recycled", "sustainable", "eco"]

/-- Keywords of the negative (impact-increasing) modifier. -/
def negativeKeywords : List String := ["fast", "processed", "imported", "synthetic"]

/-- The keyword test of `apply_contextual_modifiers`:
`any(keyword in category or any(keyword in mat for mat in materials) for keyword in kws)`
with `category` and the materials both lowered. -/
def keywordHit (kws : List String) (item : Item) : Bool :=
  kws.any fun k =>
    pyIn k (pyLower (item.category.getD "")) ||
    (item.materials.map pyLower).any fun m => pyIn k m

/-- The contextual modifier step (ecoscore.py `apply_contextual_modifiers`).
The `description` key deleted by the source before the loops is not part of
`Scores` here; the loops update every boundary value. -/
def apply_contextual_modifiers (base : Scores) (item : Item) : Scores :=
  let s1 := if keywordHit positiveKeywords item
    then base.map (fun x => max 5 (x * (8/10))) else base
  if keywordHit negativeKeywords item
    then s1.map (fun x => min 95 (x * (12/10))) else s1

/-! ## Normalization (ecoscore.py `normalize_boundary_score`, lines 285-312) -/

/-- Normalization of a raw factor-table score against a boundary's global
transgression status (ecoscore.py `normalize_boundary_score`). -/
def normalize_boundary_score (raw_score : ℚ) (boundary_key : Boundary) : ℚ :=
  let boundary := PLANETARY_BOUNDARIES boundary_key
  let transgression_factor := raw_score / 100
  let normalized_score :=
    if boundary.current_global_status > boundary.safe_operating_space then
      min 100 (transgression_factor *
        (50 + ((boundary.current_global_status - boundary.safe_operating_space) /
          boundary.safe_operating_space) * 50))
    else
      min 50 (transgression_factor * 50)
  max 0 (min 100 normalized_score)

/-! ## Item scoring (ecoscore.py `score_item`, lines 565-649) -/

/-- The result of scoring one item: the five normalized boundary scores plus
the details block of the source (matched domain table, matched category,
raw scores after modifiers). -/
structure ScoredItem where
  item : Item
  scores : Scores
  factor_table_used : Domain
  category_matched : String
  raw_scores : Scores
deriving DecidableEq

/-- Score a single item across all planetary boundaries
(ecoscore.py `score_item`). -/
def score_item (item : Item) : ScoredItem :=
  let item_type := pyLower (item.type.getD "")
  let category := pyLower (item.category.getD "")
  let factor_key := type_mapping item_type
  let factor_table := FACTOR_TABLES factor_key
  let base_scores := selectBase factor_table category item.materials
  let modified := apply_contextual_modifiers base_scores item
  { item := item
    scores :=
      ⟨normalize_boundary_score modified.climate .climate,
       normalize_boundary_score modified.biosphere .biosphere,
       normalize_boundary_score modified.biogeochemical .biogeochemical,
       normalize_boundary_score modified.freshwater .freshwater,
       normalize_boundary_score modified.aerosols .aerosols⟩
    factor_table_used := factor_key
    category_matched := category
    raw_scores := modified }

/-! ## Grading (ecoscore.py `calculate_grade`, lines 407-426) -/

/-- Letter grades, A+ best through F worst. -/
inductive Grade
  | Aplus
  | A
  | Bplus
  | B
  | Cplus
  | C
  | Dplus
  | D
  | F
deriving DecidableEq, Fintype, Repr

/-- Position of a grade in the quality ordering: 0 is best (A+), 8 is
worst (F); used to compare grades. -/
def gradeRank : Grade → ℕ
  | .Aplus => 0
  | .A => 1
  | .Bplus => 2
  | .B => 3
  | .Cplus => 4
  | .C => 5
  | .Dplus => 6
  | .D => 7
  | .F => 8

/-- Letter grade from a composite EcoScore (ecoscore.py `calculate_grade`). -/
def calculate_grade (composite_score : ℚ) : Grade :=
  if composite_score ≤ 20 then .Aplus
  else if composite_score ≤ 30 then .A
  else if composite_score ≤ 40 then .Bplus
  else if composite_score ≤ 50 then .B
  else if composite_score ≤ 60 then .Cplus
  else if composite_score ≤ 70 then .C
  else if composite_score ≤ 80 then .Dplus
  else if composite_score ≤ 90 then .D
  else .F

/-! ## Composite scoring (ecoscore.py `calculate_ecoscore`, lines 314-386) -/

/-- The slice of the scoring result the claims are about: scored items,
per-boundary averages, composite, grade. The recommendation list, boundary
detail report and methodology block of the source are presentation layers
no claim references and are not embedded. -/
structure EcoResult where
  items : List ScoredItem
  per_boundary_averages : Boundary → ℚ
  composite : ℚ
  grade : Grade

/-- Per-boundary averaging step of `calculate_ecoscore` (lines 341-347):
every scored item carries every boundary, so the collected list for a
boundary is the map over all scored items; an empty list defaults to 50. -/
def perBoundaryAverage (scored : List ScoredItem) (b : Boundary) : ℚ :=
  let collected := scored.map (fun s => s.scores.get b)
  if collected.isEmpty then 50 else collected.sum / collected.length

/-- Weighted composite step of `calculate_ecoscore` (lines 349-362): every
boundary key is present in the averages dict, so the loop accumulates all
five weights and weighted averages. -/
def compositeOf (scored : List ScoredItem) : ℚ :=
  let total_weight := (allBoundaries.map (fun b => (PLANETARY_BOUNDARIES b).weight)).sum
  let weighted := (allBoundaries.map
    (fun b => perBoundaryAverage scored b * (PLANETARY_BOUNDARIES b).weight)).sum
  if total_weight > 0 then weighted / total_weight else 50

/-- Item-based composite scoring (ecoscore.py `calculate_ecoscore`). The
empty-item case returns the default all-50 result whose grade the source
hardcodes to "C". -/
def calculate_ecoscore (items : List Item) : EcoResult :=
  if items.isEmpty then
    { items := [], per_boundary_averages := fun _ => 50, composite := 50, grade := .C }
  else
    let scored := items.map score_item
    let composite := compositeOf scored
    { items := scored
      per_boundary_averages := perBoundaryAverage scored
      composite := composite
      grade := calculate_grade composite }

/-! ## Quiz scoring (ecoscore.py `calculate_ecoscore_from_quiz_responses`,
lines 752-862) -/

/-- A quiz answer: the endpoint delivers either a string or a list of
strings (the waste-reduction multi-select). -/
inductive QAnswer
  | s (v : String)
  | l (v : List String)
deriving DecidableEq

/-- One quiz response. -/
structure QuizResponse where
  question_id : String
  answer : QAnswer
deriving DecidableEq

/-- Lookup in the `responses_dict` built by the source: the dict is filled
by iterating the list, so a later response to the same question overwrites
an earlier one (last occurrence wins). -/
def respLookup (responses : List QuizResponse) (qid : String) : Option QAnswer :=
  (responses.reverse.find? (fun r => r.question_id = qid)).map (fun r => r.answer)

/-- Python's `int(x)` as used on the water-usage answer: parses a string of
digits with an optional sign, fails otherwise; a list argument raises
`TypeError`, which the source catches into a no-op. -/
def parseIntAnswer : QAnswer → Option Int
  | .s v => v.toInt?
  | .l _ => none

/-- Food-choice block of the quiz scorer (ecoscore.py lines 772-787);
an absent question or unrecognized answer leaves the scores unchanged. -/
def quizFoodStep (ans : Option QAnswer) (s : Scores) : Scores :=
  match ans with
  | some (.s v) =>
    if v = "plant-based" then
      { s with climate := max 15 (s.climate - 30),
               biosphere := max 20 (s.biosphere - 25),
               biogeochemical := max 25 (s.biogeochemical - 20) }
    else if v = "mixed" then
      { s with climate := max 25 (s.climate - 15),
               biosphere := max 30 (s.biosphere - 10) }
    else if v = "meat-heavy" then
      { s with climate := min 85 (s.climate + 25),
               biosphere := min 80 (s.biosphere + 20),
               biogeochemical := min 85 (s.biogeochemical + 25) }
    else if v = "packaged" then
      { s with climate := min 75 (s.climate + 15),
               aerosols := min 75 (s.aerosols + 20) }
    else s
  | _ => s

/-- Transport-choice block of the quiz scorer (ecoscore.py lines 790-802). -/
def quizTransportStep (ans : Option QAnswer) (s : Scores) : Scores :=
  match ans with
  | some (.s v) =>
    if v = "walk" ∨ v = "bike" then
      { s with climate := max 10 (s.climate - 35),
               aerosols := max 15 (s.aerosols - 30) }
    else if v = "public" then
      { s with climate := max 25 (s.climate - 15),
               aerosols := max 30 (s.aerosols - 15) }
    else if v = "electric" then
      { s with climate := max 30 (s.climate - 10) }
    else if v = "car" then
      { s with climate := min 85 (s.climate + 30),
               aerosols := min 80 (s.aerosols + 25) }
    else s
  | _ => s

/-- Distance-traveled block of the quiz scorer (ecoscore.py lines 805-815);
the "under_5km" answer is an explicit no-op in the source. -/
def quizDistanceStep (ans : Option QAnswer) (s : Scores) : Scores :=
  match ans with
  | some (.s v) =>
    if v = "5_20km" then { s with climate := min 80 (s.climate + 10) }
    else if v = "20_50km" then { s with climate := min 85 (s.climate + 20) }
    else if v = "over_50km" then { s with climate := min 90 (s.climate + 30) }
    else s
  | _ => s

/-- Water-consciousness block of the quiz scorer (ecoscore.py lines 818-829);
an unparsable rating is swallowed by the source's try/except into a no-op. -/
def quizWaterStep (ans : Option QAnswer) (s : Scores) : Scores :=
  match ans.bind parseIntAnswer with
  | some water_rating =>
    if water_rating ≤ 2 then { s with freshwater := max 20 (s.freshwater - 25) }
    else if water_rating = 3 then { s with freshwater := max 35 (s.freshwater - 10) }
    else if water_rating ≥ 4 then { s with freshwater := min 75 (s.freshwater + 20) }
    else s
  | none => s

/-- Waste-reduction block of the quiz scorer (ecoscore.py lines 832-837);
only a list-valued answer is recognized (5 points per listed action). -/
def quizWasteStep (ans : Option QAnswer) (s : Scores) : Scores :=
  match ans with
  | some (.l was) =>
    let reduction_factor : ℚ := was.length * 5
    { s with aerosols := max 20 (s.aerosols - reduction_factor),
             biogeochemical := max 25 (s.biogeochemical - reduction_factor) }
  | _ => s

/-- The boundary scores computed by the quiz scorer: every boundary starts
at the 50.0 baseline and the five question blocks run in source order. -/
def quizBoundaryScores (responses : List QuizResponse) : Scores :=
  quizWasteStep (respLookup responses "waste_reduction")
    (quizWaterStep (respLookup responses "water_usage")
      (quizDistanceStep (respLookup responses "distance_traveled")
        (quizTransportStep (respLookup responses "transport_today")
          (quizFoodStep (respLookup responses "food_today") Scores.neutral))))

/-- Quiz-based scoring (ecoscore.py `calculate_ecoscore_from_quiz_responses`):
the composite is the weighted sum over all five boundaries (the weights sum
to 1, so the source applies no division here). -/
def calculate_ecoscore_from_quiz_responses (responses : List QuizResponse) : EcoResult :=
  let scores := quizBoundaryScores responses
  let composite := (allBoundaries.map
    (fun b => scores.get b * (PLANETARY_BOUNDARIES b).weight)).sum
  { items := []
    per_boundary_averages := scores.get
    composite := composite
    grade := calculate_grade composite }

/-! ## Recommender action catalog (recommender.py lines 13-214) -/

/-- The ids of the twelve catalog actions, in the source dict's insertion
order. -/
inductive ActionId
  | plant_meals
  | local_food
  | food_waste_reduction
  | secondhand_shopping
  | clothing_repair
  | clothing_swap
  | active_transport
  | public_transport
  | carpool
  | minimal_consumption
  | digital_minimalism
  | reusable_items
deriving DecidableEq, Fintype, Repr

/-- One catalog action (recommender.py `Action`). `impact_reduction` is an
association list in the source dict's key order. -/
structure Action where
  id : String
  name : String
  description : String
  category : String
  impact_reduction : List (Boundary × ℚ)
  difficulty : String
  time_commitment : String
  cost : String
  social_aspect : Bool
  campus_specific : Bool
  tags : List String
deriving DecidableEq

/-- Dict lookup in an impact-reduction map. -/
def impactLookup (impact : List (Boundary × ℚ)) (b : Boundary) : Option ℚ :=
  (impact.find? (fun p => p.1 = b)).map (fun p => p.2)

/-- The static action catalog (recommender.py `_load_actions`). -/
def actions : ActionId → Action
  | .plant_meals =>
    ⟨"plant_meals", "Plant-Based Meals 3x/week",
     "Replace meat meals with plant-based alternatives 3 times per week", "food",
     [(.climate, 25), (.biosphere, 20), (.biogeochemical, 30), (.freshwater, 15), (.aerosols, 10)],
     "easy", "daily", "free", true, false,
     ["diet", "health", "climate", "beginner-friendly"]⟩
  | .local_food =>
    ⟨"local_food", "Choose Local and Seasonal Food",
     "Buy locally sourced, seasonal produce when possible", "food",
     [(.climate, 15), (.biosphere, 25), (.freshwater, 10), (.aerosols, 20)],
     "medium", "weekly", "low", false, true,
     ["local", "seasonal", "farmers-market"]⟩
  | .food_waste_reduction =>
    ⟨"food_waste_reduction", "Reduce Food Waste",
     "Plan meals, store food properly, and compost scraps", "food",
     [(.climate, 20), (.biogeochemical, 15), (.freshwater, 10)],
     "easy", "daily", "free", false, false,
     ["waste", "planning", "composting"]⟩
  | .secondhand_shopping =>
    ⟨"secondhand_shopping", "Shop Second-Hand First",
     "Check thrift stores and online marketplaces before buying new clothes", "clothing",
     [(.climate, 60), (.freshwater, 70), (.aerosols, 50), (.biosphere, 40)],
     "easy", "monthly", "low", true, true,
     ["thrift", "vintage", "budget-friendly"]⟩
  | .clothing_repair =>
    ⟨"clothing_repair", "Repair and Mend Clothes",
     "Fix damaged clothes instead of discarding them", "clothing",
     [(.climate, 80), (.freshwater, 90), (.aerosols, 70)],
     "medium", "monthly", "low", true, true,
     ["repair", "diy", "skills"]⟩
  | .clothing_swap =>
    ⟨"clothing_swap", "Join Clothing Swaps",
     "Participate in campus clothing exchange events", "clothing",
     [(.climate, 70), (.freshwater, 80), (.aerosols, 60)],
     "easy", "monthly", "free", true, true,
     ["swap", "community", "social"]⟩
  | .active_transport =>
    ⟨"active_transport", "Walk or Bike for Short Trips",
     "Use walking or cycling for trips under 3km", "transport",
     [(.climate, 90), (.aerosols, 85), (.biosphere, 30)],
     "easy", "daily", "free", false, false,
     ["health", "fitness", "zero-emission"]⟩
  | .public_transport =>
    ⟨"public_transport", "Use Public Transport",
     "Choose buses, trains, or campus shuttles for longer trips", "transport",
     [(.climate, 60), (.aerosols, 70), (.biosphere, 20)],
     "easy", "daily", "low", false, true,
     ["public", "affordable", "accessible"]⟩
  | .carpool =>
    ⟨"carpool", "Carpool or Rideshare",
     "Share rides with friends or use carpooling apps", "transport",
     [(.climate, 40), (.aerosols, 45)],
     "medium", "weekly", "low", true, true,
     ["social", "cost-sharing", "flexible"]⟩
  | .minimal_consumption =>
    ⟨"minimal_consumption", "Practice Mindful Consumption",
     "Buy only what you need and choose quality over quantity", "lifestyle",
     [(.climate, 30), (.biosphere, 35), (.freshwater, 25), (.aerosols, 40)],
     "medium", "daily", "free", false, false,
     ["mindfulness", "minimalism", "budgeting"]⟩
  | .digital_minimalism =>
    ⟨"digital_minimalism", "Reduce Digital Footprint",
     "Stream less, use devices longer, choose efficient settings", "lifestyle",
     [(.climate, 15), (.aerosols, 20)],
     "easy", "daily", "free", false, false,
     ["digital", "energy", "screen-time"]⟩
  | .reusable_items =>
    ⟨"reusable_items", "Use Reusable Items",
     "Carry reusable water bottle, coffee cup, and shopping bags", "lifestyle",
     [(.aerosols, 60), (.climate, 10), (.biosphere, 20)],
     "easy", "daily", "low", false, false,
     ["reusable", "waste-reduction", "habit"]⟩

/-- The action ids in the catalog dict's insertion order. -/
def allActionIds : List ActionId :=
  [.plant_meals, .local_food, .food_waste_reduction, .secondhand_shopping,
   .clothing_repair, .clothing_swap, .active_transport, .public_transport,
   .carpool, .minimal_consumption, .digital_minimalism, .reusable_items]

/-! ## Action similarity and graph (recommender.py lines 289-353) -/

/-- Impact-profile similarity (recommender.py `_calculate_impact_similarity`):
1 minus the mean absolute difference over shared boundaries of the two
impact maps, each difference divided by 100; 0 when either map is empty or
no boundary is shared. -/
def impactSimilarity (impact1 impact2 : List (Boundary × ℚ)) : ℚ :=
  if impact1.isEmpty || impact2.isEmpty then 0
  else
    let common := allBoundaries.filter
      (fun b => (impactLookup impact1 b).isSome && (impactLookup impact2 b).isSome)
    if common.isEmpty then 0
    else
      let differences := common.map (fun b =>
        |((impactLookup impact1 b).getD 0) - ((impactLookup impact2 b).getD 0)| / 100)
      1 - differences.sum / differences.length

/-- Pairwise action similarity (recommender.py `_calculate_action_similarity`).
The tag term counts distinct shared tags and divides by
`max(len(tags1), len(tags2), 1)` over the raw tag-list lengths. -/
def actionSimilarity (action1 action2 : Action) : ℚ :=
  (if action1.category = action2.category then 3/10 else 0)
  + (if action1.difficulty = action2.difficulty then 2/10 else 0)
  + (if action1.time_commitment = action2.time_commitment then 1/10 else 0)
  + ((action1.tags.dedup.filter (fun t => action2.tags.contains t)).length :
      ℚ) / (max action1.tags.length (max action2.tags.length 1)) * (3/10)
  + impactSimilarity action1.impact_reduction action2.impact_reduction * (1/10)

/-- Stable descending insertion by similarity, modelling Python's
`connections.sort(key=lambda x: x[1], reverse=True)`. -/
def insertDesc (p : ActionId × ℚ) : List (ActionId × ℚ) → List (ActionId × ℚ)
  | [] => [p]
  | q :: rest => if q.2 < p.2 then p :: q :: rest else q :: insertDesc p rest

/-- Stable descending sort by similarity. -/
def sortDesc (l : List (ActionId × ℚ)) : List (ActionId × ℚ) :=
  l.foldl (fun acc p => insertDesc p acc) []

/-- The connection list of one action in the static action graph
(recommender.py `_build_action_graph`): every other action whose similarity
exceeds 0.3, with its similarity, sorted descending. -/
def action_graph (a : ActionId) : List (ActionId × ℚ) :=
  sortDesc (((allActionIds.filter (fun o => o ≠ a)).map
    (fun o => (o, actionSimilarity (actions a) (actions o)))).filter
      (fun p => p.2 > 3/10))

/-! ## Leaderboard (product_database.py lines 274-326 and 384-407) -/

/-- One leaderboard entry (product_database.py `LeaderboardEntry`). -/
structure LeaderboardEntry where
  user_id : String
  pseudonym : String
  composite_score : ℚ
  boundary_scores : Scores
  submission_date : String
  session_count : ℕ
  campus_affiliation : Option String
deriving DecidableEq

/-- The animal names of `_generate_pseudonym`. -/
def animals : List String :=
  ["Eco-Eagle", "Green-Gecko", "Solar-Sparrow", "Wind-Wolf", "Ocean-Otter",
   "Forest-Fox", "River-Rabbit", "Mountain-Mouse", "Garden-Goose", "Desert-Deer",
   "Arctic-Ant", "Jungle-Jay", "Prairie-Panda", "Coral-Cat", "Meadow-Mole",
   "Valley-Viper", "Canyon-Crane", "Tundra-Tiger", "Savanna-Swan", "Reef-Raven"]

/-- The adjectives of `_generate_pseudonym`. -/
def adjectives : List String :=
  ["Mighty", "Swift", "Wise", "Bold", "Gentle", "Bright", "Noble", "Calm",
   "Keen", "Brave", "Quick", "Smart", "Kind", "Strong", "Pure", "Free"]

/-- Python's `f-string` `:02d` padding for the pseudonym's number, which is
always below 100. -/
def twoDigits (n : ℕ) : String :=
  (if n < 10 then "0" else "") ++ toString n

/-- Pseudonym generation (product_database.py `_generate_pseudonym`). The
process-level string hash (`hash(user_id)`) is passed in as the function
`h`; everything after it is a pure computation on `h user_id % 10000`. -/
def generate_pseudonym (h : String → ℕ) (user_id : String) : String :=
  let hash_val := h user_id % 10000
  let animal := animals.getD (hash_val % animals.length) ""
  let adjective := adjectives.getD ((hash_val / animals.length) % adjectives.length) ""
  let number := (hash_val / (animals.length * adjectives.length)) % 100
  adjective ++ "-" ++ animal ++ "-" ++ twoDigits number

/-- Python's `x or y` on an optional string (`campus_affiliation or
old_entry.campus_affiliation`): `None` and the empty string are falsy. -/
def pyOrStr (a b : Option String) : Option String :=
  match a with
  | some s => if s = "" then b else some s
  | none => b

/-- Outcome record of `submit_score`. -/
inductive SubmitOutcome
  | improved (delta : ℚ)
  | no_improvement (current_best : ℚ)
  | new_entry (rank : ℕ)
deriving DecidableEq

/-- Leaderboard submission (product_database.py `submit_score`). The
timestamp `datetime.now().isoformat()` is passed in as `now` and the
process string hash as `h`; the stats recomputation and file persistence
of the source do not touch the entry list and are not embedded. The inner
`none` case is unreachable: `findIdx?` only returns indexes in range. -/
def submit_score (h : String → ℕ) (entries : List LeaderboardEntry)
    (user_id : String) (composite_score : ℚ) (boundary_scores : Scores)
    (campus_affiliation : Option String) (now : String) :
    List LeaderboardEntry × SubmitOutcome :=
  match entries.findIdx? (fun e => e.user_id = user_id) with
  | some i =>
    match entries[i]? with
    | some old_entry =>
      if composite_score < old_entry.composite_score then
        (entries.set i
          { user_id := user_id
            pseudonym := old_entry.pseudonym
            composite_score := composite_score
            boundary_scores := boundary_scores
            submission_date := now
            session_count := old_entry.session_count + 1
            campus_affiliation := pyOrStr campus_affiliation old_entry.campus_affiliation },
         .improved (old_entry.composite_score - composite_score))
      else
        (entries.set i { old_entry with session_count := old_entry.session_count + 1 },
         .no_improvement old_entry.composite_score)
    | none => (entries, .no_improvement 0)
  | none =>
    (entries ++ [{ user_id := user_id
                   pseudonym := generate_pseudonym h user_id
                   composite_score := composite_score
                   boundary_scores := boundary_scores
                   submission_date := now
                   session_count := 1
                   campus_affiliation := campus_affiliation }],
     .new_entry (entries.length + 1))

/-! ## Spec-side comparison definitions

These definitions follow the wording of the specification (not the source)
and exist only to be compared against the source-derived definitions
above. -/

/-- Normalization as the specification states it: identical to
`normalize_boundary_score` except that the within-safe-space branch is
claimed to be `min(100, transgression_factor * 50)` where the source has
`min(50, ...)`. -/
def normalizeSpecStated (raw_score : ℚ) (boundary_key : Boundary) : ℚ :=
  let boundary := PLANETARY_BOUNDARIES boundary_key
  let transgression_factor := raw_score / 100
  let normalized_score :=
    if boundary.current_global_status > boundary.safe_operating_space then
      min 100 (transgression_factor *
        (50 + ((boundary.current_global_status - boundary.safe_operating_space) /
          boundary.safe_operating_space) * 50))
    else
      min 100 (transgression_factor * 50)
  max 0 (min 100 normalized_score)

/-- Jaccard overlap of two tag lists viewed as sets: intersection size over
union size (0 for two empty sets). -/
def tagJaccard (tags1 tags2 : List String) : ℚ :=
  let inter := (tags1.dedup.filter (fun t => tags2.contains t)).length
  let union := (tags1 ++ tags2).dedup.length
  if union = 0 then 0 else (inter : ℚ) / union

/-- Action similarity as the claim states it, with the tag term a Jaccard
overlap; defined only to be compared with `actionSimilarity`. -/
def actionSimilarityJaccard (action1 action2 : Action) : ℚ :=
  (if action1.category = action2.category then 3/10 else 0)
  + (if action1.difficulty = action2.difficulty then 2/10 else 0)
  + (if action1.time_commitment = action2.time_commitment then 1/10 else 0)
  + tagJaccard action1.tags action2.tags * (3/10)
  + impactSimilarity action1.impact_reduction action2.impact_reduction * (1/10)

/-- Tag term that the code actually computes, stated set-wise: the number of
distinct shared tags divided by the larger raw tag-list length (floored at
1). -/
def tagOverlapCoeff (tags1 tags2 : List String) : ℚ :=
  ((tags1.toFinset ∩ tags2.toFinset).card : ℚ) /
    (max tags1.length (max tags2.length 1))

/-- Impact-profile similarity restated over `Finset Boundary`: 1 minus the
mean absolute difference of shared boundary impact values, each divided
by 100. -/
def impactSimilaritySet (impact1 impact2 : List (Boundary × ℚ)) : ℚ :=
  if impact1 = [] ∨ impact2 = [] then 0
  else
    let shared := Finset.univ.filter
      (fun b : Boundary => (impactLookup impact1 b).isSome ∧ (impactLookup impact2 b).isSome)
    if shared = ∅ then 0
    else 1 - (∑ b ∈ shared,
      |((impactLookup impact1 b).getD 0) - ((impactLookup impact2 b).getD 0)| / 100) /
        shared.card

/-- Action similarity as amended: the tag term is the overlap coefficient
`|shared| / max(|tags1|, |tags2|, 1)`, not a Jaccard overlap. -/
def actionSimilarityAmended (action1 action2 : Action) : ℚ :=
  (if action1.category = action2.category then 3/10 else 0)
  + (if action1.difficulty = action2.difficulty then 2/10 else 0)
  + (if action1.time_commitment = action2.time_commitment then 1/10 else 0)
  + tagOverlapCoeff action1.tags action2.tags * (3/10)
  + impactSimilaritySet action1.impact_reduction action2.impact_reduction * (1/10)

/-! ## Concrete fixtures used by witness theorems -/

/-- A leaderboard fixture: one existing entry for user "u1" with composite
score 60. -/
def exampleEntry : LeaderboardEntry :=
  ⟨"u1", "Mighty-Eco-Eagle-00", 60, Scores.neutral, "2026-01-01", 1, none⟩

/-- A fixed stand-in for the process string hash. -/
def exampleHash : String → ℕ := fun _ => 1234

/-- An item carrying both a positive and a negative modifier keyword. -/
def exampleModifierItem : Item :=
  ⟨some "meal", some "organic fast-food", []⟩

/-- An item with an empty category and a material that would match a
fashion row if material matching were ever consulted. -/
def exampleEmptyCategoryItem : Item :=
  ⟨some "meal", some "", ["polyester"]⟩

/-! ## Helper lemmas -/

lemma clamp_mem (x : ℚ) : 0 ≤ max 0 (min 100 x) ∧ max 0 (min 100 x) ≤ 100 :=
  ⟨le_max_left 0 _, max_le (by norm_num) (min_le_left _ _)⟩

lemma scores_get_map (f : ℚ → ℚ) (s : Scores) (b : Boundary) :
    (Scores.map f s).get b = f (s.get b) := by
  cases b <;> rfl

lemma toFinset_sum_of_nodup {α M : Type} [DecidableEq α] [AddCommMonoid M]
    (l : List α) (hl : l.Nodup) (f : α → M) :
    l.toFinset.sum f = (l.map f).sum := by
  induction l with
  | nil => simp
  | cons a t ih =>
    rcases List.nodup_cons.mp hl with ⟨ha, ht⟩
    rw [List.toFinset_cons, Finset.sum_insert (by simpa using ha),
      List.map_cons, List.sum_cons, ih ht]

lemma mem_allBoundaries (b : Boundary) : b ∈ allBoundaries := by
  cases b <;> simp [allBoundaries]

lemma tagCount_eq (t1 t2 : List String) :
    (t1.dedup.filter (fun t => t2.contains t)).length =
      (t1.toFinset ∩ t2.toFinset).card := by
  have hnd : (t1.dedup.filter (fun t => t2.contains t)).Nodup :=
    (List.nodup_dedup t1).filter _
  have key : (t1.dedup.filter (fun t => t2.contains t)).toFinset =
      t1.toFinset ∩ t2.toFinset := by
    ext x
    simp [List.mem_filter, List.mem_toFinset, List.mem_dedup, List.contains]
  calc (t1.dedup.filter (fun t => t2.contains t)).length
      = (t1.dedup.filter (fun t => t2.contains t)).dedup.length := by rw [hnd.dedup]
    _ = (t1.dedup.filter (fun t => t2.contains t)).toFinset.card :=
        (List.card_toFinset _).symm
    _ = (t1.toFinset ∩ t2.toFinset).card := by rw [key]

lemma impactSimilarity_eq_set (i1 i2 : List (Boundary × ℚ)) :
    impactSimilarity i1 i2 = impactSimilaritySet i1 i2 := by
  unfold impactSimilarity impactSimilaritySet
  by_cases h1 : i1 = []
  · simp [h1]
  by_cases h2 : i2 = []
  · simp [h1, h2]
  have e1 : i1.isEmpty = false := by
    cases i1 with
    | nil => exact absurd rfl h1
    | cons a t => rfl
  have e2 : i2.isEmpty = false := by
    cases i2 with
    | nil => exact absurd rfl h2
    | cons a t => rfl
  have hsh : Finset.univ.filter
      (fun b : Boundary => (impactLookup i1 b).isSome ∧ (impactLookup i2 b).isSome) =
      (allBoundaries.filter
        (fun b => (impactLookup i1 b).isSome && (impactLookup i2 b).isSome)).toFinset := by
    ext b
    simp [List.mem_toFinset, List.mem_filter, Finset.mem_filter, mem_allBoundaries]
  have hnodup : (allBoundaries.filter
      (fun b => (impactLookup i1 b).isSome && (impactLookup i2 b).isSome)).Nodup :=
    (by decide : allBoundaries.Nodup).filter _
  rw [hsh]
  simp only [e1, e2, Bool.or_self, Bool.false_eq_true, if_false,
    if_neg (not_or.mpr ⟨h1, h2⟩)]
  by_cases hc : (allBoundaries.filter
      (fun b => (impactLookup i1 b).isSome && (impactLookup i2 b).isSome)) = []
  · simp [hc]
  · have hcb : (allBoundaries.filter
        (fun b => (impactLookup i1 b).isSome && (impactLookup i2 b).isSome)).isEmpty = false := by
      cases hcl : (allBoundaries.filter
          (fun b => (impactLookup i1 b).isSome && (impactLookup i2 b).isSome)) with
      | nil => exact absurd hcl hc
      | cons a t => rfl
    have hfin : (allBoundaries.filter
        (fun b => (impactLookup i1 b).isSome && (impactLookup i2 b).isSome)).toFinset ≠ ∅ :=
      fun hemp => hc ((List.toFinset_eq_empty_iff _).mp hemp)
    simp only [hcb, Bool.false_eq_true, if_false, if_neg hfin]
    rw [toFinset_sum_of_nodup _ hnodup, List.card_toFinset, hnodup.dedup,
      List.length_map]

lemma actionSimilarity_eq_amended (a1 a2 : Action) :
    actionSimilarity a1 a2 = actionSimilarityAmended a1 a2 := by
  unfold actionSimilarity actionSimilarityAmended tagOverlapCoeff
  rw [tagCount_eq, impactSimilarity_eq_set]

lemma mem_insertDesc (x p : ActionId × ℚ) (l : List (ActionId × ℚ)) :
    x ∈ insertDesc p l ↔ x = p ∨ x ∈ l := by
  induction l with
  | nil => simp [insertDesc]
  | cons q rest ih =>
    simp only [insertDesc]
    split_ifs with hq
    · simp [List.mem_cons]
    · simp only [List.mem_cons, ih]
      tauto

lemma mem_sortDesc (x : ActionId × ℚ) (l : List (ActionId × ℚ)) :
    x ∈ sortDesc l ↔ x ∈ l := by
  suffices h : ∀ acc, x ∈ l.foldl (fun acc p => insertDesc p acc) acc ↔ x ∈ acc ∨ x ∈ l by
    simpa [sortDesc] using h []
  induction l with
  | nil => intro acc; simp
  | cons q rest ih =>
    intro acc
    simp only [List.foldl_cons, ih, mem_insertDesc, List.mem_cons]
    tauto

lemma mem_allActionIds (a : ActionId) : a ∈ allActionIds := by
  cases a <;> simp [allActionIds]

lemma getD_mem {α : Type} (l : List α) (i : ℕ) (d : α) (hi : i < l.length) :
    l.getD i d ∈ l := by
  rw [List.getD_eq_getElem l d hi]
  exact List.getElem_mem hi

lemma sum_boundary (f : Boundary → ℚ) :
    (∑ b : Boundary, f b) =
      f .climate + f .biosphere + f .biogeochemical + f .freshwater + f .aerosols := by
  have huniv : (Finset.univ : Finset Boundary) =
      insert .climate (insert .biosphere (insert .biogeochemical
        (insert .freshwater {.aerosols}))) := by decide
  rw [huniv, Finset.sum_insert (by decide), Finset.sum_insert (by decide),
    Finset.sum_insert (by decide), Finset.sum_insert (by decide), Finset.sum_singleton]
  ring

/-! ## Claim theorems -/

/-- C1: for every input item — any or missing type, category and materials —
`score_item` yields, for each of the five configured planetary boundaries, a
normalized score in [0,100]; the function is total by construction, every
unknown value being resolved by the fallback chain. -/
theorem score_item_total_bounds (item : Item) (b : Boundary) :
    0 ≤ (score_item item).scores.get b ∧ (score_item item).scores.get b ≤ 100 := by
  cases b <;> exact clamp_mem _

/-- C3: in `score_item`'s contextual-modifier step, a positive keyword hit
multiplies every boundary's raw score by 0.8 with a floor of 5, a negative
hit multiplies by 1.2 with a ceiling of 95; when both apply the reduction
runs first and then the increase, each clamped independently on the
evolving value, so a negatively-modified score never exceeds 95 and a
positively-modified score never drops below 5. -/
theorem contextual_modifiers_spec (s : Scores) (item : Item) (b : Boundary) :
    (keywordHit positiveKeywords item = true → keywordHit negativeKeywords item = true →
      (apply_contextual_modifiers s item).get b =
        min 95 (max 5 (s.get b * (8/10)) * (12/10))) ∧
    (keywordHit positiveKeywords item = true → keywordHit negativeKeywords item = false →
      (apply_contextual_modifiers s item).get b = max 5 (s.get b * (8/10))) ∧
    (keywordHit positiveKeywords item = false → keywordHit negativeKeywords item = true →
      (apply_contextual_modifiers s item).get b = min 95 (s.get b * (12/10))) ∧
    (keywordHit positiveKeywords item = false → keywordHit negativeKeywords item = false →
      (apply_contextual_modifiers s item).get b = s.get b) ∧
    (keywordHit negativeKeywords item = true →
      (apply_contextual_modifiers s item).get b ≤ 95) ∧
    (keywordHit positiveKeywords item = true →
      5 ≤ (apply_contextual_modifiers s item).get b) := by
  cases hp : keywordHit positiveKeywords item <;>
    cases hn : keywordHit negativeKeywords item <;>
    refine ⟨fun h1 h2 => ?_, fun h1 h2 => ?_, fun h1 h2 => ?_, fun h1 h2 => ?_,
      fun h1 => ?_, fun h1 => ?_⟩ <;>
    try simp_all [apply_contextual_modifiers, scores_get_map]
  all_goals first
    | exact absurd h1 (by simp)
    | exact absurd h2 (by simp)
    | exact min_le_left _ _
    | exact le_max_left _ _
    | (refine ⟨by norm_num, ?_⟩
       have h5 : (5:ℚ) ≤ max 5 (s.get b * (8/10)) := le_max_left _ _
       linarith)

/-- Witness for C3: on a concrete item whose category contains both an
"organic" and a "fast" keyword, both modifiers fire and the climate score of
the neutral map becomes min 95 (max 5 (50 * 0.8) * 1.2). -/
theorem contextual_modifiers_spec_witness :
    keywordHit positiveKeywords exampleModifierItem = true ∧
    keywordHit negativeKeywords exampleModifierItem = true ∧
    (apply_contextual_modifiers Scores.neutral exampleModifierItem).get .climate =
      min 95 (max 5 (Scores.neutral.get .climate * (8/10)) * (12/10)) :=
  ⟨by decide, by decide,
    (contextual_modifiers_spec Scores.neutral exampleModifierItem .climate).1
      (by decide) (by decide)⟩

/-- C4: for every non-empty item list the composite equals the weighted sum
of per-boundary averages divided by the total weight of the boundaries
present (all five, whose weights sum to 1), and a boundary with zero
contributing items defaults to the average 50. -/
theorem composite_weight_invariant (items : List Item) (h : items ≠ []) :
    (calculate_ecoscore items).composite =
      (∑ b : Boundary, (calculate_ecoscore items).per_boundary_averages b *
        (PLANETARY_BOUNDARIES b).weight) /
      (∑ b : Boundary, (PLANETARY_BOUNDARIES b).weight) ∧
    (∑ b : Boundary, (PLANETARY_BOUNDARIES b).weight) = 1 ∧
    (∀ b : Boundary, perBoundaryAverage [] b = 50) := by
  have hne : items.isEmpty = false := by
    cases items with
    | nil => exact absurd rfl h
    | cons a l => rfl
  have hw : (∑ b : Boundary, (PLANETARY_BOUNDARIES b).weight) = 1 := by
    rw [sum_boundary]
    norm_num [PLANETARY_BOUNDARIES]
  refine ⟨?_, hw, fun b => by simp [perBoundaryAverage]⟩
  rw [hw, div_one]
  simp only [calculate_ecoscore, hne, Bool.false_eq_true, if_false]
  rw [sum_boundary]
  simp only [compositeOf, allBoundaries, List.map_cons, List.map_nil,
    List.sum_cons, List.sum_nil]
  norm_num [PLANETARY_BOUNDARIES]
  ring

/-- Witness for C4: a one-item list is non-empty and its composite obeys the
weight invariant. -/
theorem composite_weight_invariant_witness :
    ([(⟨some "meal", some "mixed", []⟩ : Item)] ≠ []) ∧
    (calculate_ecoscore [(⟨some "meal", some "mixed", []⟩ : Item)]).composite =
      (∑ b : Boundary,
        (calculate_ecoscore [(⟨some "meal", some "mixed", []⟩ : Item)]).per_boundary_averages b *
          (PLANETARY_BOUNDARIES b).weight) /
      (∑ b : Boundary, (PLANETARY_BOUNDARIES b).weight) :=
  ⟨List.cons_ne_nil _ _,
    (composite_weight_invariant [(⟨some "meal", some "mixed", []⟩ : Item)]
      (List.cons_ne_nil _ _)).1⟩

/-- C2 counterexample: the freshwater boundary's current global status
(2600) does not exceed its safe operating space (4000), so the claim that
the transgressed branch applies to all five default boundaries is false;
moreover in the within-safe branch the code computes `min(50, tf * 50)`
where the claim states `min(100, tf * 50)`: at raw score 120 the code
yields 50, the claimed formula 60. -/
theorem normalize_boundary_score_claim_false :
    ¬ ((PLANETARY_BOUNDARIES Boundary.freshwater).current_global_status >
        (PLANETARY_BOUNDARIES Boundary.freshwater).safe_operating_space) ∧
    normalize_boundary_score 120 Boundary.freshwater = 50 ∧
    normalizeSpecStated 120 Boundary.freshwater = 60 ∧
    normalize_boundary_score 120 Boundary.freshwater ≠
      normalizeSpecStated 120 Boundary.freshwater := by
  refine ⟨by norm_num [PLANETARY_BOUNDARIES], ?_, ?_, ?_⟩ <;>
    norm_num [normalize_boundary_score, normalizeSpecStated, PLANETARY_BOUNDARIES]

/-- C2 amended: normalization computes `tf = raw/100`; for the four default
boundaries whose current global status exceeds the safe operating space
(all except freshwater, where 2600 < 4000) the normalized score is
`min(100, tf * (50 + ((current - safe)/safe) * 50))`; otherwise it is
`min(50, tf * 50)`; the final value is clamped to [0,100]. -/
theorem normalize_boundary_score_amended (raw : ℚ) :
    normalize_boundary_score raw .climate =
      max 0 (min 100 (raw / 100 * (50 + (415 - 350) / 350 * 50))) ∧
    normalize_boundary_score raw .biosphere =
      max 0 (min 100 (raw / 100 * (50 + (100 - 10) / 10 * 50))) ∧
    normalize_boundary_score raw .biogeochemical =
      max 0 (min 100 (raw / 100 * (50 + (150 - 62) / 62 * 50))) ∧
    normalize_boundary_score raw .freshwater =
      max 0 (min 50 (raw / 100 * 50)) ∧
    normalize_boundary_score raw .aerosols =
      max 0 (min 100 (raw / 100 * (50 + (30 - 25) / 25 * 50))) := by
  refine ⟨?_, ?_, ?_, ?_, ?_⟩ <;>
    simp only [normalize_boundary_score, PLANETARY_BOUNDARIES] <;>
    norm_num

set_option maxHeartbeats 1000000 in
/-- C5: the grading function maps composites to letter grades through the
inclusive thresholds 20/30/40/50/60/70/80/90 ending at F, and is monotone:
a strictly lower composite never gets a worse grade. -/
theorem calculate_grade_thresholds_monotone :
    (∀ c1 c2 : ℚ, c1 < c2 →
      gradeRank (calculate_grade c1) ≤ gradeRank (calculate_grade c2)) ∧
    calculate_grade 20 = .Aplus ∧ calculate_grade 30 = .A ∧
    calculate_grade 40 = .Bplus ∧ calculate_grade 50 = .B ∧
    calculate_grade 60 = .Cplus ∧ calculate_grade 70 = .C ∧
    calculate_grade 80 = .Dplus ∧ calculate_grade 90 = .D ∧
    calculate_grade 91 = .F := by
  refine ⟨fun c1 c2 h => ?_, ?_, ?_, ?_, ?_, ?_, ?_, ?_, ?_, ?_⟩
  case _ =>
    unfold calculate_grade
    split_ifs <;> simp only [gradeRank] <;> first | (exfalso; linarith) | norm_num
  all_goals norm_num [calculate_grade]

/-- Witness for C5: at composites 10 < 95 the hypothesis holds and the
grade of 10 ranks no worse than the grade of 95. -/
theorem calculate_grade_thresholds_monotone_witness :
    (10:ℚ) < 95 ∧ gradeRank (calculate_grade 10) ≤ gradeRank (calculate_grade 95) :=
  ⟨by norm_num, calculate_grade_thresholds_monotone.1 10 95 (by norm_num)⟩

set_option maxHeartbeats 1000000 in
/-- C7 counterexample: the code's tag term divides the shared-tag count by
`max(len(tags1), len(tags2), 1)`, not by the size of the tag-set union, so
the claimed Jaccard formula disagrees with the code: for `plant_meals`
versus `active_transport` (one shared tag "health", tag lists of lengths 4
and 3, union of size 6) the code computes 17/40 = 0.425 while the claimed
formula gives 2/5 = 0.4. -/
theorem action_similarity_jaccard_false :
    actionSimilarity (actions .plant_meals) (actions .active_transport) = 17/40 ∧
    actionSimilarityJaccard (actions .plant_meals) (actions .active_transport) = 2/5 ∧
    actionSimilarity (actions .plant_meals) (actions .active_transport) ≠
      actionSimilarityJaccard (actions .plant_meals) (actions .active_transport) := by
  refine ⟨?_, ?_, ?_⟩ <;>
    (simp +decide only [actionSimilarity, actionSimilarityJaccard, tagJaccard,
      actions, impactSimilarity, impactLookup, allBoundaries, List.find?,
      List.dedup, List.filter, List.isEmpty, List.map, List.length, List.sum,
      List.contains, List.elem, Option.isSome, Option.map, Option.getD,
      List.pwFilter, List.append]
     norm_num)

/-- C7 amended: for every pair of distinct catalog actions the similarity is
0.3 for a shared category, plus 0.2 for a shared difficulty, plus 0.1 for a
shared time commitment, plus 0.3 times the overlap coefficient of the tag
sets (shared distinct tags over `max(len(tags1), len(tags2), 1)`, not the
Jaccard overlap), plus 0.1 times the impact-profile similarity (1 minus the
mean absolute difference of shared boundary impacts, each divided by 100);
the static action graph links exactly the pairs whose similarity exceeds
0.3. -/
theorem action_similarity_amended (a b : ActionId) (hab : a ≠ b) :
    actionSimilarity (actions a) (actions b) =
      actionSimilarityAmended (actions a) (actions b) ∧
    ((action_graph a).any (fun p => p.1 = b) = true ↔
      3/10 < actionSimilarity (actions a) (actions b)) := by
  refine ⟨actionSimilarity_eq_amended _ _, ?_⟩
  unfold action_graph
  constructor
  · intro h
    obtain ⟨p, hp, hpb⟩ := List.any_eq_true.mp h
    rw [mem_sortDesc] at hp
    obtain ⟨hpmem, hpgt⟩ := List.mem_filter.mp hp
    obtain ⟨o, _, rfl⟩ := List.mem_map.mp hpmem
    have hob : o = b := by simpa using hpb
    subst hob
    simpa using hpgt
  · intro h
    apply List.any_eq_true.mpr
    refine ⟨(b, actionSimilarity (actions a) (actions b)), ?_, by simp⟩
    rw [mem_sortDesc]
    apply List.mem_filter.mpr
    refine ⟨List.mem_map.mpr ⟨b, List.mem_filter.mpr ⟨mem_allActionIds b, ?_⟩, rfl⟩, ?_⟩
    · simpa using hab.symm
    · simpa using h

/-- Witness for C7 amended: the distinct pair plant_meals / local_food
satisfies the hypothesis and the similarity equation. -/
theorem action_similarity_amended_witness :
    (ActionId.plant_meals ≠ ActionId.local_food) ∧
    actionSimilarity (actions .plant_meals) (actions .local_food) =
      actionSimilarityAmended (actions .plant_meals) (actions .local_food) :=
  ⟨by decide, (action_similarity_amended .plant_meals .local_food (by decide)).1⟩

set_option maxHeartbeats 1000000 in
/-- C6: quiz scoring starts every boundary at the 50.0 baseline (the empty
response list scores 50 on every boundary and composite), and the
meat-heavy + car responses yield a composite strictly above that default
with a grade no better than C. -/
theorem quiz_meat_heavy_car_worse_than_neutral :
    (∀ b : Boundary,
      (calculate_ecoscore_from_quiz_responses []).per_boundary_averages b = 50) ∧
    (calculate_ecoscore_from_quiz_responses []).composite = 50 ∧
    (calculate_ecoscore_from_quiz_responses
        [⟨"food_today", .s "meat-heavy"⟩, ⟨"transport_today", .s "car"⟩]).composite >
      (calculate_ecoscore_from_quiz_responses []).composite ∧
    gradeRank .C ≤ gradeRank ((calculate_ecoscore_from_quiz_responses
        [⟨"food_today", .s "meat-heavy"⟩, ⟨"transport_today", .s "car"⟩]).grade) := by
  have hconc : quizBoundaryScores
      [⟨"food_today", .s "meat-heavy"⟩, ⟨"transport_today", .s "car"⟩] =
      ⟨85, 70, 75, 50, 75⟩ := by
    norm_num +decide [quizBoundaryScores, respLookup, List.find?, quizFoodStep,
      quizTransportStep, quizDistanceStep, quizWaterStep, quizWasteStep,
      Scores.neutral, parseIntAnswer]
  have hempty : quizBoundaryScores [] = Scores.neutral := rfl
  refine ⟨fun b => ?_, ?_, ?_, ?_⟩
  · cases b <;>
      norm_num [calculate_ecoscore_from_quiz_responses, hempty, Scores.get, Scores.neutral]
  · norm_num [calculate_ecoscore_from_quiz_responses, hempty, Scores.get,
      Scores.neutral, allBoundaries, PLANETARY_BOUNDARIES]
  · norm_num [calculate_ecoscore_from_quiz_responses, hempty, hconc, Scores.get,
      Scores.neutral, allBoundaries, PLANETARY_BOUNDARIES]
  · norm_num [calculate_ecoscore_from_quiz_responses, hconc, Scores.get,
      allBoundaries, PLANETARY_BOUNDARIES, calculate_grade, gradeRank]

/-- C8: for a user_id with an existing entry found at index i, a strictly
lower composite replaces the stored score, boundary scores and timestamp,
preserves the pseudonym, increments session_count by exactly 1 and reports
the improvement delta; a higher-or-equal composite leaves every stored
field except session_count unchanged (still incremented by exactly 1) and
reports no_improvement with the existing best; other entries are untouched
in both cases. -/
theorem submit_score_existing (h : String → ℕ) (entries : List LeaderboardEntry)
    (user_id : String) (c : ℚ) (bs : Scores) (camp : Option String) (now : String)
    (i : ℕ) (old : LeaderboardEntry)
    (hfind : entries.findIdx? (fun e => e.user_id = user_id) = some i)
    (hget : entries[i]? = some old) :
    (c < old.composite_score →
      (submit_score h entries user_id c bs camp now).1[i]? = some
        { user_id := user_id, pseudonym := old.pseudonym, composite_score := c,
          boundary_scores := bs, submission_date := now,
          session_count := old.session_count + 1,
          campus_affiliation := pyOrStr camp old.campus_affiliation } ∧
      (∀ j, j ≠ i → (submit_score h entries user_id c bs camp now).1[j]? = entries[j]?) ∧
      (submit_score h entries user_id c bs camp now).1.length = entries.length ∧
      (submit_score h entries user_id c bs camp now).2 =
        .improved (old.composite_score - c)) ∧
    (old.composite_score ≤ c →
      (submit_score h entries user_id c bs camp now).1[i]? =
        some { old with session_count := old.session_count + 1 } ∧
      (∀ j, j ≠ i → (submit_score h entries user_id c bs camp now).1[j]? = entries[j]?) ∧
      (submit_score h entries user_id c bs camp now).1.length = entries.length ∧
      (submit_score h entries user_id c bs camp now).2 =
        .no_improvement old.composite_score) := by
  have hi : i < entries.length := by
    by_contra hge
    rw [List.getElem?_eq_none (Nat.le_of_not_lt hge)] at hget
    exact Option.noConfusion hget
  constructor
  · intro hlt
    simp only [submit_score, hfind, hget, if_pos hlt]
    refine ⟨List.getElem?_set_eq_of_lt _ hi,
      fun j hj => List.getElem?_set_ne (fun e => hj e.symm), by simp, by simp⟩
  · intro hle
    simp only [submit_score, hfind, hget, if_neg (not_lt.mpr hle)]
    refine ⟨List.getElem?_set_eq_of_lt _ hi,
      fun j hj => List.getElem?_set_ne (fun e => hj e.symm), by simp, by simp⟩

/-- Witness for C8: one stored entry for "u1" with composite 60; submitting
55 satisfies the hypotheses, reports improvement 60 - 55 and keeps a single
entry. -/
theorem submit_score_existing_witness :
    ([exampleEntry].findIdx? (fun e => e.user_id = "u1") = some 0) ∧
    ([exampleEntry][0]? = some exampleEntry) ∧
    (55:ℚ) < exampleEntry.composite_score ∧
    (submit_score exampleHash [exampleEntry] "u1" 55 Scores.neutral none
      "2026-01-02").2 = .improved (exampleEntry.composite_score - 55) ∧
    (submit_score exampleHash [exampleEntry] "u1" 55 Scores.neutral none
      "2026-01-02").1.length = [exampleEntry].length :=
  ⟨rfl, rfl, by norm_num [exampleEntry],
    ((submit_score_existing exampleHash [exampleEntry] "u1" 55 Scores.neutral
      none "2026-01-02" 0 exampleEntry rfl rfl).1
        (by norm_num [exampleEntry])).2.2.2,
    ((submit_score_existing exampleHash [exampleEntry] "u1" 55 Scores.neutral
      none "2026-01-02" 0 exampleEntry rfl rfl).1
        (by norm_num [exampleEntry])).2.2.1⟩

/-- C9: pseudonym generation is a pure function of the hash of the user_id:
equal user ids give equal pseudonyms, and every pseudonym is an adjective
from the fixed adjective list, an animal from the fixed animal list, and a
two-digit number below 100, joined by dashes. -/
theorem pseudonym_deterministic_format (h : String → ℕ) (u v : String) :
    (u = v → generate_pseudonym h u = generate_pseudonym h v) ∧
    ∃ adj ∈ adjectives, ∃ ani ∈ animals, ∃ n : ℕ, n < 100 ∧
      generate_pseudonym h u = adj ++ "-" ++ ani ++ "-" ++ twoDigits n := by
  refine ⟨fun e => by rw [e], ?_⟩
  refine ⟨adjectives.getD ((h u % 10000 / animals.length) % adjectives.length) "",
    getD_mem _ _ _ (Nat.mod_lt _ (by norm_num [adjectives])),
    animals.getD (h u % 10000 % animals.length) "",
    getD_mem _ _ _ (Nat.mod_lt _ (by norm_num [animals])),
    (h u % 10000 / (animals.length * adjectives.length)) % 100,
    Nat.mod_lt _ (by norm_num), rfl⟩

/-- Witness for C9 at a concrete hash function and user id. -/
theorem pseudonym_deterministic_format_witness :
    ("u1" = "u1" → generate_pseudonym exampleHash "u1" =
      generate_pseudonym exampleHash "u1") ∧
    ∃ adj ∈ adjectives, ∃ ani ∈ animals, ∃ n : ℕ, n < 100 ∧
      generate_pseudonym exampleHash "u1" = adj ++ "-" ++ ani ++ "-" ++ twoDigits n :=
  pseudonym_deterministic_format exampleHash "u1" "u1"

/-- C10: for an item whose category is missing or empty, the substring
matching rule always succeeds at the first row of the selected domain table
(the empty string is a substring of every key and no table has an empty
key), so the raw base scores are the first row's scores — "plant-based" for
the food domain — and the material, domain-average and flat-50 fallbacks
are never consulted. -/
theorem empty_category_first_row (item : Item)
    (hcat : item.category = none ∨ item.category = some "") :
    ((score_item item).raw_scores = apply_contextual_modifiers
      (selectBase (FACTOR_TABLES (type_mapping (pyLower (item.type.getD ""))))
        (pyLower (item.category.getD "")) item.materials) item) ∧
    (some (selectBase (FACTOR_TABLES (type_mapping (pyLower (item.type.getD ""))))
        (pyLower (item.category.getD "")) item.materials) =
      (FACTOR_TABLES (type_mapping (pyLower (item.type.getD "")))).head?.map
        (fun e => e.scores)) ∧
    ((FACTOR_TABLES Domain.food).head?.map (fun e => e.category) = some "plant-based") := by
  have hc : pyLower (item.category.getD "") = "" := by
    rcases hcat with hh | hh <;> rw [hh] <;> rfl
  refine ⟨rfl, ?_, rfl⟩
  rw [hc]
  cases type_mapping (pyLower (item.type.getD "")) <;> rfl

/-- Witness for C10: an item typed "meal" with an empty category and a
"polyester" material is scored from the first food row, not from the
material fallback. -/
theorem empty_category_first_row_witness :
    (exampleEmptyCategoryItem.category = none ∨
      exampleEmptyCategoryItem.category = some "") ∧
    some (selectBase
        (FACTOR_TABLES (type_mapping (pyLower (exampleEmptyCategoryItem.type.getD ""))))
        (pyLower (exampleEmptyCategoryItem.category.getD ""))
        exampleEmptyCategoryItem.materials) =
      (FACTOR_TABLES (type_mapping (pyLower (exampleEmptyCategoryItem.type.getD "")))).head?.map
        (fun e => e.scores) :=
  ⟨Or.inr rfl,
    (empty_category_first_row exampleEmptyCategoryItem (Or.inr rfl)).2.1⟩

end EcoBee
